import Mathlib

/-!
Verification development for the `air-app-vers` validation engine.

The Python sources under `scripts/` are shallowly embedded below:

* `validate_semver`, `parse_semver`, `validate_iso8601`, `parse_iso8601`,
  `validate_location_hash`, `validate_name` — primitive validators
  (`validate_manifest.py`, `validate_config.py`).
* `validate_manifest` — the later, canonical manifest validator
  (`validate_manifest.py`, lines 97-254).
* `validate_notes_filename`, `validate_notes_file` — `validate_notes.py`.
* `validate_config` — `validate_config.py` (the four-tuple version).
* `mainValidate` — the cross-validation orchestrator; its notes
  reconciliation is modelled from the spec (see its doc comment).

Modelling conventions:

* Parsed YAML documents are values of type `Yaml`.  Mapping keys are
  restricted to strings (YAML non-string keys make the Python code raise
  inside `re.match`; that corner is outside every claim and is noted where
  relevant).  A YAML timestamp scalar is `Yaml.timestamp t` where `t` is
  the instant as whole seconds since the Unix epoch; Python compares
  timezone-aware datetimes by instant, and `parse_iso8601` coerces naive
  datetimes to UTC, so a single integer per instant is faithful.
* Python truthiness, `in`, and `[...]` subscription are modelled by
  `pyTruthy`, `pyContains`, `pyGetItem`; the latter two can raise, which is
  modelled by `Except String`: an `Except.error` value is an uncaught
  Python exception escaping the validator.
* `dict.get(k)` returns `None` both for an absent key and for an explicit
  null value; `dictGet` reproduces that by defaulting to `Yaml.null`.
* Python `re.match(r'^...$', s)` also succeeds when `s` is a matching
  string followed by one trailing newline (`$` matches just before a final
  newline); `reMatchDollar` reproduces that.  `\d` and `[a-z]` are
  modelled over ASCII; the claims only involve ASCII strings.
* Python `set`s of strings are modelled as lists with membership-guarded
  insertion; iteration order of a Python set is unspecified, so theorems
  about set-derived lists only use membership or singleton equalities.
* Python `==` between two stored scalar values is `yamlEqScalar`; the
  validators only ever compare severity values with it, and every severity
  in the claims is a scalar.  (Deep equality of two container values, and
  the `TypeError` Python raises when an unhashable container value is
  tested for membership in a set, are not modelled; no claim depends on
  either.)
-/

/-- A parsed YAML document (string keys only; see the header comment). -/
inductive Yaml where
  | str (s : String)
  | int (n : Int)
  | bool (b : Bool)
  | null
  | timestamp (t : Int)
  | list (xs : List Yaml)
  | map (kvs : List (String × Yaml))

/-- Python truthiness (`bool(x)`) of a parsed YAML value. -/
def pyTruthy : Yaml → Bool
  | .str s => s ≠ ""
  | .int n => n ≠ 0
  | .bool b => b
  | .null => false
  | .timestamp _ => true
  | .list xs => !xs.isEmpty
  | .map kvs => !kvs.isEmpty

/-- Python `type(x).__name__` for the values a YAML parser produces. -/
def typeName : Yaml → String
  | .str _ => "str"
  | .int _ => "int"
  | .bool _ => "bool"
  | .null => "NoneType"
  | .timestamp _ => "datetime"
  | .list _ => "list"
  | .map _ => "dict"

/-- Python `str(x)`, as used inside the error-message f-strings.  The
validators only interpolate scalars into messages on the paths the claims
exercise; the container cases are placeholders. -/
def pyStr : Yaml → String
  | .str s => s
  | .int n => toString n
  | .bool b => if b then "True" else "False"
  | .null => "None"
  | .timestamp t => "datetime(" ++ toString t ++ ")"
  | .list _ => "[...]"
  | .map _ => "{...}"

/-- First-match lookup in a parsed mapping (Python dict keys are unique, so
first match is the value). -/
def pyLookup (kvs : List (String × Yaml)) (k : String) : Option Yaml :=
  (kvs.find? (fun p => p.1 == k)).map (fun p => p.2)

/-- Python `d.get(k)`: `None` when the key is absent (and an explicit null
value is also `None`, so the two coincide). -/
def dictGet (kvs : List (String × Yaml)) (k : String) : Yaml :=
  (pyLookup kvs k).getD Yaml.null

/-- `c ∈ cs` for characters, Bool-valued. -/
def charIn (c : Char) (cs : List Char) : Bool :=
  cs.any (fun d => d == c)

/-- Does the list of characters start with the given needle? -/
def startsWithChars : List Char → List Char → Bool
  | [], _ => true
  | _ :: _, [] => false
  | n :: ns, h :: hs => n == h && startsWithChars ns hs

/-- Does the haystack contain the needle as a contiguous run? -/
def containsChars (needle : List Char) : List Char → Bool
  | [] => startsWithChars needle []
  | h :: hs => startsWithChars needle (h :: hs) || containsChars needle hs

/-- Python `key in x` (`str`/`list`/`dict` are iterable; other scalars raise
`TypeError`).  For a list, `key == element` can only hold for an equal
string element. -/
def pyContains (key : String) : Yaml → Except String Bool
  | .map kvs => .ok (kvs.any (fun p => p.1 == key))
  | .list xs => .ok (xs.any (fun v => match v with | .str s => s == key | _ => false))
  | .str s => .ok (containsChars key.data s.data)
  | _ => .error "TypeError: argument of type is not iterable"

/-- Python `x[key]` with a string key: only a dict supports it; a list or a
string raises `TypeError`, anything else too. -/
def pyGetItem (key : String) : Yaml → Except String Yaml
  | .map kvs =>
    match pyLookup kvs key with
    | some v => .ok v
    | none => .error "KeyError"
  | .list _ => .error "TypeError: list indices must be integers or slices, not str"
  | .str _ => .error "TypeError: string indices must be integers"
  | _ => .error "TypeError: object is not subscriptable"

/-- Python `==` between two stored values, restricted to scalars (see the
header comment). -/
def yamlEqScalar : Yaml → Yaml → Bool
  | .str a, .str b => a == b
  | .int a, .int b => a == b
  | .bool a, .bool b => a == b
  | .null, .null => true
  | .timestamp a, .timestamp b => a == b
  | _, _ => false

/-- Membership of a stored value in a set of string constants (Python
`x in {'a', 'b'}`): only an equal string is a member. -/
def yamlInStrSet (v : Yaml) (set : List String) : Bool :=
  match v with
  | .str s => set.contains s
  | _ => false

/-! ### Regular-expression cores

Each Python pattern `^core$` is modelled by a Bool-valued function on the
character list plus the `reMatchDollar` wrapper for `$`'s trailing-newline
behaviour. -/

/-- `re.match(r'^core$', s)`: the whole string matches the core, or the
string is a matching core followed by exactly one final newline (Python `$`
matches just before a trailing newline). -/
def reMatchDollar (core : List Char → Bool) (cs : List Char) : Bool :=
  core cs ||
    (match cs.reverse with
     | '\n' :: ds => core ds.reverse
     | _ => false)

/-- One-or-more ASCII decimal digits (`\d+`). -/
def allDigits (cs : List Char) : Bool :=
  !cs.isEmpty && cs.all Char.isDigit

/-- Split a character list on `'.'`, keeping empty groups. -/
def splitOnDot : List Char → List (List Char)
  | [] => [[]]
  | c :: rest =>
    if c == '.' then [] :: splitOnDot rest
    else
      match splitOnDot rest with
      | g :: gs => (c :: g) :: gs
      | [] => [[c]]

/-- Core of `^\d+\.\d+\.\d+$`: exactly three dot-separated digit groups. -/
def semverCore (cs : List Char) : Bool :=
  match splitOnDot cs with
  | [a, b, c] => allDigits a && allDigits b && allDigits c
  | _ => false

/-- `validate_semver` (`validate_manifest.py` lines 46-49):
`re.match(r'^\d+\.\d+\.\d+$', version)`. -/
def validate_semver (version : String) : Bool :=
  reMatchDollar semverCore version.data

/-- Decimal value of a digit group (`int('0012') = 12`). -/
def digitsToNat (cs : List Char) : Nat :=
  cs.foldl (fun a c => a * 10 + (c.toNat - 48)) 0

/-- `parse_semver` (`validate_manifest.py` lines 52-55): split on `'.'` and
convert each part with `int`; only called on semver-valid strings. -/
def parse_semver (version : String) : List Nat :=
  (splitOnDot version.data).map digitsToNat

/-- Python tuple `<=` on integer tuples (lexicographic, shorter tuple first
on a tie of the common part). -/
def natListLe : List Nat → List Nat → Bool
  | [], _ => true
  | _ :: _, [] => false
  | a :: as', b :: bs => a < b || (a == b && natListLe as' bs)

/-- A lowercase hex character (`[a-f0-9]`). -/
def isHexLower (c : Char) : Bool :=
  c.isDigit || ('a' ≤ c && c ≤ 'f')

/-- Core of `^[a-f0-9]{64}$`. -/
def hashCore (cs : List Char) : Bool :=
  cs.length == 64 && cs.all isHexLower

/-- `validate_location_hash` (`validate_manifest.py` lines 91-94):
`re.match(r'^[a-f0-9]{64}$', hash_value)`. -/
def validate_location_hash (hash_value : String) : Bool :=
  reMatchDollar hashCore hash_value.data

/-- Core of `^[a-z]+$`. -/
def nameCore (cs : List Char) : Bool :=
  !cs.isEmpty && cs.all (fun c => 'a' ≤ c && c ≤ 'z')

/-- `validate_name` (`validate_config.py` lines 26-31): a value is a valid
name iff it is a non-empty string of lowercase ASCII letters (non-strings
and `""` fail the `isinstance`/truthiness guard before the regex). -/
def validate_name (v : Yaml) : Bool :=
  match v with
  | .str s => s ≠ "" && reMatchDollar nameCore s.data
  | _ => false

/-! ### ISO-8601 timestamps

`datetime.fromisoformat` is modelled on the forms the corpus uses:
`YYYY-MM-DD`, `YYYY-MM-DDTHH:MM:SS`, optionally followed by `+HH:MM`,
`-HH:MM`, or (after `validate_iso8601`'s `replace('Z', '+00:00')`) a
trailing `Z`.  Other accepted ISO-8601 spellings (fractional seconds,
`HH:MM` without seconds, a space separator) do not occur in the corpus or
the claims and are out of scope of this model. -/

/-- Leap year in the proleptic Gregorian calendar. -/
def isLeapYear (y : Nat) : Bool :=
  y % 4 == 0 && (y % 100 != 0 || y % 400 == 0)

/-- Number of days in a month. -/
def daysInMonth (y m : Nat) : Nat :=
  if m == 2 then (if isLeapYear y then 29 else 28)
  else if m == 4 || m == 6 || m == 9 || m == 11 then 30
  else 31

/-- Days in all months strictly before month `m` of year `y`. -/
def daysBeforeMonth (y : Nat) : Nat → Nat
  | 0 => 0
  | m + 1 => if m == 0 then 0 else daysBeforeMonth y m + daysInMonth y m

/-- Days from 0001-01-01 to the start of year `y` (proleptic Gregorian). -/
def daysBeforeYear (y : Nat) : Nat :=
  let n := y - 1
  n * 365 + n / 4 - n / 100 + n / 400

/-- Seconds since the Unix epoch of a calendar date at midnight UTC
(`719162` days lie between 0001-01-01 and 1970-01-01). -/
def epochOfDate (y m d : Nat) : Int :=
  ((daysBeforeYear y + daysBeforeMonth y m + (d - 1) : Nat) : Int) - 719162

/-- Parse the date prefix `YYYY-MM-DD` with full calendar validation. -/
def parseDatePart (y1 y2 y3 y4 m1 m2 d1 d2 : Char) : Option (Nat × Nat × Nat) :=
  if allDigits [y1, y2, y3, y4] && allDigits [m1, m2] && allDigits [d1, d2] then
    let y := digitsToNat [y1, y2, y3, y4]
    let m := digitsToNat [m1, m2]
    let d := digitsToNat [d1, d2]
    if 1 ≤ y && 1 ≤ m && m ≤ 12 && 1 ≤ d && d ≤ daysInMonth y m then
      some (y, m, d)
    else none
  else none

/-- Parse an `HH:MM:SS` triple. -/
def parseTimePart (h1 h2 n1 n2 s1 s2 : Char) : Option Int :=
  if allDigits [h1, h2] && allDigits [n1, n2] && allDigits [s1, s2] then
    let h := digitsToNat [h1, h2]
    let n := digitsToNat [n1, n2]
    let s := digitsToNat [s1, s2]
    if h ≤ 23 && n ≤ 59 && s ≤ 59 then some ((h * 3600 + n * 60 + s : Nat) : Int)
    else none
  else none

/-- Parse the optional timezone suffix: empty (naive), a trailing `Z`
(introduced by the `replace('Z', '+00:00')` in the callers), or `±HH:MM`.
Returns the offset in seconds to subtract to reach UTC. -/
def parseOffsetPart : List Char → Option Int
  | [] => some 0
  | ['Z'] => some 0
  | [sign, o1, o2, ':', p1, p2] =>
    if (sign == '+' || sign == '-') && allDigits [o1, o2] && allDigits [p1, p2] then
      let oh := digitsToNat [o1, o2]
      let om := digitsToNat [p1, p2]
      if oh ≤ 23 && om ≤ 59 then
        let off : Int := (oh * 3600 + om * 60 : Nat)
        some (if sign == '+' then off else -off)
      else none
    else none
  | _ => none

/-- Parse an ISO-8601 string (scoped as described above) to seconds since
the epoch, a naive value being taken at face value (the callers coerce
naive datetimes to UTC). -/
def parseISO : List Char → Option Int
  | [y1, y2, y3, y4, '-', m1, m2, '-', d1, d2] =>
    match parseDatePart y1 y2 y3 y4 m1 m2 d1 d2 with
    | some (y, m, d) => some (epochOfDate y m d * 86400)
    | none => none
  | y1 :: y2 :: y3 :: y4 :: '-' :: m1 :: m2 :: '-' :: d1 :: d2 :: 'T' :: h1 :: h2 :: ':' :: n1 :: n2 :: ':' :: s1 :: s2 :: rest =>
    match parseDatePart y1 y2 y3 y4 m1 m2 d1 d2, parseTimePart h1 h2 n1 n2 s1 s2, parseOffsetPart rest with
    | some (y, m, d), some tsec, some off => some (epochOfDate y m d * 86400 + tsec - off)
    | _, _, _ => none
  | _ => none

/-- `validate_iso8601` (`validate_manifest.py` lines 58-68): a datetime
object is accepted outright; a string must parse; any other value raises
`AttributeError` at `.replace`, which is caught and converted to `False`. -/
def validate_iso8601 (v : Yaml) : Bool :=
  match v with
  | .timestamp _ => true
  | .str s => (parseISO s.data).isSome
  | _ => false

/-- `parse_iso8601` (`validate_manifest.py` lines 71-88): datetime objects
pass through (naive ones coerced to UTC), strings are parsed, anything else
yields `None`. -/
def parse_iso8601 (v : Yaml) : Option Int :=
  match v with
  | .timestamp t => some t
  | .str s => parseISO s.data
  | _ => none

/-! ### Shared small utilities -/

/-- Lexicographic `≤` on character lists by code point (Python string
comparison). -/
def charsLe : List Char → List Char → Bool
  | [], _ => true
  | _ :: _, [] => false
  | a :: as', b :: bs =>
    if a < b then true
    else if b < a then false
    else charsLe as' bs

/-- Python `s1 <= s2`. -/
def strLe (a b : String) : Bool :=
  charsLe a.data b.data

/-- Insert into a `strLe`-sorted list. -/
def insertSorted (s : String) : List String → List String
  | [] => [s]
  | t :: ts => if strLe s t then s :: t :: ts else t :: insertSorted s ts

/-- Python `sorted(...)` on strings (the inputs are duplicate-free, so any
stable comparison sort agrees with this insertion sort). -/
def sortStrings (l : List String) : List String :=
  l.foldr insertSorted []

/-- Keep the first occurrence of each string. -/
def dedupStr (seen : List String) : List String → List String
  | [] => []
  | x :: xs =>
    if seen.contains x then dedupStr seen xs
    else x :: dedupStr (x :: seen) xs

/-- Python `', '.join(l)`. -/
def joinComma : List String → String
  | [] => ""
  | [s] => s
  | s :: rest => s ++ ", " ++ joinComma rest

/-- `sorted(set(keys) - allowed)`, rendered ready for the error message. -/
def extraFields (kvs : List (String × Yaml)) (allowed : List String) : List String :=
  sortStrings ((dedupStr [] (kvs.map (fun p => p.1))).filter (fun k => !allowed.contains k))

/-- Set-like insertion into a list of strings. -/
def addStr (l : List String) (s : String) : List String :=
  if l.contains s then l else l ++ [s]

/-! ### Manifest validation (`validate_manifest.py`) -/

def SEVERITY_VALUES : List String := ["green", "yellow", "red"]

def MATCHER_TYPES : List String := ["default", "country", "location_hash"]

def ALLOWED_VERSION_FIELDS : List String := ["released_at", "matchers", "notes"]

def ALLOWED_MATCHER_FIELDS : List String := ["matcher_type", "matcher_value", "severity"]

/-- `MAX_AGE_DAYS = 365`, as seconds (`timedelta(days=365)`). -/
def maxAgeSecs : Int := 365 * 86400

def invalidFmtMsg (v : String) : String :=
  "Invalid semantic version format: " ++ v

def orderMsg (prev v : String) : String :=
  "Versions not in ascending order: " ++ prev ++ " -> " ++ v

def detailsObjMsg (v tn : String) : String :=
  "Version " ++ v ++ ": version details must be an object, not " ++ tn

def extraFieldsMsg (v : String) (fields : List String) : String :=
  "Version " ++ v ++ ": extra fields not allowed: " ++ joinComma fields

def missingRelMsg (v : String) : String :=
  "Version " ++ v ++ ": missing 'released_at'"

def invalidIsoMsg (v : String) : String :=
  "Version " ++ v ++ ": invalid ISO 8601 timestamp"

def futureMsg (v : String) : String :=
  "Version " ++ v ++ ": released_at is in the future"

def oldMsg (v : String) : String :=
  "Version " ++ v ++ ": released_at is older than 12 months"

def chronoMsg (v pv : String) : String :=
  "Version " ++ v ++ ": released_at is not in chronological order (earlier than " ++ pv ++ ")"

def missingMatchersMsg (v : String) : String :=
  "Version " ++ v ++ ": missing 'matchers'"

def matchersListMsg (v : String) : String :=
  "Version " ++ v ++ ": 'matchers' must be a list"

def matcherObjMsg (v tn : String) : String :=
  "Version " ++ v ++ ": matcher must be an object, not " ++ tn

def matcherExtraMsg (v : String) (fields : List String) : String :=
  "Version " ++ v ++ ": matcher has extra fields not allowed: " ++ joinComma fields

def invalidMatcherTypeMsg (v s : String) : String :=
  "Version " ++ v ++ ": invalid matcher_type '" ++ s ++ "'"

def invalidCountryMsg (v s : String) : String :=
  "Version " ++ v ++ ": invalid country code '" ++ s ++ "'"

def conflictCountryMsg (v c : String) : String :=
  "Version " ++ v ++ ": conflicting country matchers for '" ++ c ++ "' with different severities"

def dupCountryMsg (v c : String) : String :=
  "Version " ++ v ++ ": duplicate country matcher for '" ++ c ++ "'"

def invalidHashMsg (v : String) : String :=
  "Version " ++ v ++ ": invalid location hash format"

def conflictHashMsg (v : String) : String :=
  "Version " ++ v ++ ": conflicting location hash matchers with different severities"

def dupHashMsg (v : String) : String :=
  "Version " ++ v ++ ": duplicate location hash matcher"

def invalidSeverityMsg (v s : String) : String :=
  "Version " ++ v ++ ": invalid severity '" ++ s ++ "'"

def missingDefaultMsg (v : String) : String :=
  "Version " ++ v ++ ": missing default matcher"

def dupDefaultMsg (v : String) (n : Nat) : String :=
  "Version " ++ v ++ ": duplicate default matchers (" ++ toString n ++ " found)"

def VALID_COUNTRIES : List String :=
  ["US", "GB", "DE", "FR", "IT", "ES", "NL", "BE", "AT", "CH",
   "PL", "CZ", "SK", "HU", "RO", "BG", "HR", "SI", "SE", "NO",
   "DK", "FI", "IE", "PT", "GR", "LU", "EE", "LV", "LT", "CY",
   "MT", "IS"]

/-- Semver-format and ascending-order pass (`validate_manifest.py` lines
119-136): `prev` is the last semver-valid key seen so far
(`valid_versions[-2]` at comparison time); format-invalid keys are reported
and skipped without updating `prev`. -/
def versionOrderErrors (prev : Option String) : List String → List String
  | [] => []
  | v :: rest =>
    if !validate_semver v then invalidFmtMsg v :: versionOrderErrors prev rest
    else
      (match prev with
       | some p => if natListLe (parse_semver v) (parse_semver p) then [orderMsg p v] else []
       | none => []) ++ versionOrderErrors (some v) rest

/-- State of the matcher loop for one version (`has_default`,
`default_count`, `country_matchers`, `location_hash_matchers`). -/
structure MState where
  hasDefault : Bool
  defaultCount : Nat
  countryM : List (String × Yaml)
  hashM : List (String × Yaml)

def initMState : MState := ⟨false, 0, [], []⟩

/-- The `country` matcher checks (`validate_manifest.py` lines 213-226):
`if not country or country not in VALID_COUNTRIES` collapses to "an allowed
country string" since `''` is not an allowed country and no non-string value
is in the set. -/
def countryCheck (version : String) (st : MState) (mkvs : List (String × Yaml)) :
    List String × MState :=
  match dictGet mkvs "matcher_value" with
  | .str c =>
    if VALID_COUNTRIES.contains c then
      match pyLookup st.countryM c with
      | some prevSev =>
        if yamlEqScalar prevSev (dictGet mkvs "severity") then ([dupCountryMsg version c], st)
        else ([conflictCountryMsg version c], st)
      | none => ([], { st with countryM := st.countryM ++ [(c, dictGet mkvs "severity")] })
    else ([invalidCountryMsg version c], st)
  | other => ([invalidCountryMsg version (pyStr other)], st)

/-- The `location_hash` matcher checks (`validate_manifest.py` lines
228-241).  (For a truthy non-string `matcher_value` Python would raise
`TypeError` inside `re.match`; that corner, outside every claim, is
modelled as the invalid-format error that the surrounding code clearly
intends.) -/
def hashCheck (version : String) (st : MState) (mkvs : List (String × Yaml)) :
    List String × MState :=
  match dictGet mkvs "matcher_value" with
  | .str h =>
    if h ≠ "" && validate_location_hash h then
      match pyLookup st.hashM h with
      | some prevSev =>
        if yamlEqScalar prevSev (dictGet mkvs "severity") then ([dupHashMsg version], st)
        else ([conflictHashMsg version], st)
      | none => ([], { st with hashM := st.hashM ++ [(h, dictGet mkvs "severity")] })
    else ([invalidHashMsg version], st)
  | _ => ([invalidHashMsg version], st)

/-- One iteration of the matcher loop (`validate_manifest.py` lines
193-245).  Note the `continue` after an invalid `matcher_type`: the
severity check at the end of the loop body is skipped for such a matcher. -/
def matcherStep (version : String) (st : MState) (m : Yaml) : List String × MState :=
  match m with
  | .map mkvs =>
    let ef := extraFields mkvs ALLOWED_MATCHER_FIELDS
    let extraErrs := if ef.isEmpty then [] else [matcherExtraMsg version ef]
    match dictGet mkvs "matcher_type" with
    | .str mt =>
      if MATCHER_TYPES.contains mt then
        let st1 :=
          if mt == "default" then
            { st with hasDefault := true, defaultCount := st.defaultCount + 1 }
          else st
        let cres := if mt == "country" then countryCheck version st1 mkvs else ([], st1)
        let hres := if mt == "location_hash" then hashCheck version cres.2 mkvs else ([], cres.2)
        let sevErrs :=
          if yamlInStrSet (dictGet mkvs "severity") SEVERITY_VALUES then []
          else [invalidSeverityMsg version (pyStr (dictGet mkvs "severity"))]
        (extraErrs ++ cres.1 ++ hres.1 ++ sevErrs, hres.2)
      else (extraErrs ++ [invalidMatcherTypeMsg version mt], st)
    | other => (extraErrs ++ [invalidMatcherTypeMsg version (pyStr other)], st)
  | other => ([matcherObjMsg version (typeName other)], st)

/-- The matcher loop over a version's `matchers` list. -/
def matcherLoop (version : String) (st : MState) : List Yaml → List String × MState
  | [] => ([], st)
  | m :: ms =>
    let r := matcherStep version st m
    let rest := matcherLoop version r.2 ms
    (r.1 ++ rest.1, rest.2)

/-- The `matchers` part of one version entry (`validate_manifest.py` lines
179-252), including the exactly-one-default checks after the loop. -/
def matchersCheck (version : String) (kvs : List (String × Yaml)) : List String :=
  match pyLookup kvs "matchers" with
  | none => [missingMatchersMsg version]
  | some (.list ms) =>
    let r := matcherLoop version initMState ms
    r.1 ++ (if r.2.hasDefault then [] else [missingDefaultMsg version])
        ++ (if r.2.defaultCount > 1 then [dupDefaultMsg version r.2.defaultCount] else [])
  | some _ => [matchersListMsg version]

/-- The `released_at` checks of one version entry (`validate_manifest.py`
lines 156-177).  Returns the emitted errors and the updated
(`prev_released_at`, `prev_version_for_date`) pair, which only advances
when a timestamp was parsed. -/
def releasedAtCheck (now : Int) (prev : Option (Int × String)) (version : String)
    (kvs : List (String × Yaml)) : List String × Option (Int × String) :=
  match pyLookup kvs "released_at" with
  | none => ([missingRelMsg version], prev)
  | some v =>
    if !validate_iso8601 v then ([invalidIsoMsg version], prev)
    else
      match parse_iso8601 v with
      | none => ([], prev)
      | some t =>
        ((if t > now then [futureMsg version] else []) ++
         (if t < now - maxAgeSecs then [oldMsg version] else []) ++
         (match prev with
          | some pp => if t < pp.1 then [chronoMsg version pp.2] else []
          | none => []),
         some (t, version))

/-- One iteration of the per-version loop (`validate_manifest.py` lines
145-252). -/
def entryStep (now : Int) (prev : Option (Int × String)) (version : String)
    (details : Yaml) : List String × Option (Int × String) :=
  match details with
  | .map kvs =>
    let ef := extraFields kvs ALLOWED_VERSION_FIELDS
    let extraErrs := if ef.isEmpty then [] else [extraFieldsMsg version ef]
    let rel := releasedAtCheck now prev version kvs
    (extraErrs ++ rel.1 ++ matchersCheck version kvs, rel.2)
  | other => ([detailsObjMsg version (typeName other)], prev)

/-- The per-version loop over `versions.items()`. -/
def entriesLoop (now : Int) (prev : Option (Int × String)) :
    List (String × Yaml) → List String × Option (Int × String)
  | [] => ([], prev)
  | (v, d) :: rest =>
    let r := entryStep now prev v d
    let rest' := entriesLoop now r.2 rest
    (r.1 ++ rest'.1, rest'.2)

/-- Body of `validate_manifest` once `versions` is known to be a non-empty
dict: the ordering pass followed by the per-version pass. -/
def validateManifestDict (now : Int) (vkvs : List (String × Yaml)) : List String :=
  versionOrderErrors none (vkvs.map (fun p => p.1)) ++ (entriesLoop now none vkvs).1

/-- `validate_manifest` (`validate_manifest.py` lines 97-254) on an
already-parsed document.  `now` is the value of `datetime.now(timezone.utc)`
observed by this call, as seconds since the epoch.  An `Except.error` is an
uncaught Python exception. -/
def validate_manifest (now : Int) (data : Yaml) : Except String (List String) :=
  if !pyTruthy data then .ok ["Missing 'versions' key"]
  else
    match pyContains "versions" data with
    | .error e => .error e
    | .ok false => .ok ["Missing 'versions' key"]
    | .ok true =>
      match pyGetItem "versions" data with
      | .error e => .error e
      | .ok versions =>
        if !pyTruthy versions then .ok ["No versions defined"]
        else
          match versions with
          | .map vkvs => .ok (validateManifestDict now vkvs)
          | _ => .ok ["'versions' must be a dictionary, not a list or other type"]

/-! ### Notes validation (`validate_notes.py`) -/

def NOTES_MAX_LENGTH : Nat := 500

def REQUIRED_LOCALE : String := "en-en"

def entryObjMsg (i : Nat) : String :=
  "Locale entry " ++ toString i ++ ": must be an object"

def entryMissingNameMsg (i : Nat) : String :=
  "Locale entry " ++ toString i ++ ": missing 'name' field"

def entryNameStringMsg (i : Nat) : String :=
  "Locale entry " ++ toString i ++ ": 'name' must be a string"

def dupLocaleMsg (nm : String) : String :=
  "Duplicate locale entry: " ++ nm

def notDefinedMsg (nm : String) : String :=
  "Locale '" ++ nm ++ "' not defined in config.yml"

def missingNotesMsg (nm : String) : String :=
  "Locale '" ++ nm ++ "': missing 'notes' field"

def notesStringMsg (nm : String) : String :=
  "Locale '" ++ nm ++ "': 'notes' must be a string"

def emptyNotesMsg (nm : String) : String :=
  "Locale '" ++ nm ++ "': notes cannot be empty"

def exceedsNotesMsg (nm : String) (n : Nat) : String :=
  "Locale '" ++ nm ++ "': notes exceeds 500 characters (" ++ toString n ++ ")"

def missingRequiredLocaleMsg : String :=
  "Missing required locale 'en-en' (needed for fallback)"

/-- The `notes`-field checks of one locale entry (`validate_notes.py` lines
100-114): `entry.get('notes')` is `None` (missing field), a non-string, an
empty string, a too-long string, or fine. -/
def notesFieldErrs (nm : String) (kvs : List (String × Yaml)) : List String :=
  match dictGet kvs "notes" with
  | .null => [missingNotesMsg nm]
  | .str s =>
    if s.length < 1 then [emptyNotesMsg nm]
    else if s.length > NOTES_MAX_LENGTH then [exceedsNotesMsg nm s.length]
    else []
  | _ => [notesStringMsg nm]

/-- One iteration of the locale-entry loop (`validate_notes.py` lines
72-114), returning the emitted errors, the updated `seen_locales` and the
updated `has_required_locale`.  `if not locale_name` fires on every falsy
value (so `name: ''` is reported as a missing name before the `isinstance`
check). -/
def localeEntryStep (validLocales : List String) (i : Nat) (seen : List String)
    (hasReq : Bool) (e : Yaml) : List String × List String × Bool :=
  match e with
  | .map kvs =>
    let nm := dictGet kvs "name"
    if !pyTruthy nm then ([entryMissingNameMsg i], seen, hasReq)
    else
      match nm with
      | .str s =>
        ((if seen.contains s then [dupLocaleMsg s] else []) ++
         (if validLocales.contains s then [] else [notDefinedMsg s]) ++
         notesFieldErrs s kvs,
         addStr seen s,
         hasReq || s == REQUIRED_LOCALE)
      | _ => ([entryNameStringMsg i], seen, hasReq)
  | _ => ([entryObjMsg i], seen, hasReq)

/-- The loop over `enumerate(locales)`, returning the emitted errors and
the final (`seen_locales`, `has_required_locale`) state. -/
def notesLoop (validLocales : List String) (i : Nat) (seen : List String)
    (hasReq : Bool) : List Yaml → List String × List String × Bool
  | [] => ([], seen, hasReq)
  | e :: rest =>
    let r := localeEntryStep validLocales i seen hasReq e
    let rest' := notesLoop validLocales (i + 1) r.2.1 r.2.2 rest
    (r.1 ++ rest'.1, rest'.2)

/-- Body of `validate_notes_file` once `locales` is known to be a non-empty
list, including the required-locale check after the loop. -/
def validateNotesList (validLocales : List String) (locales : List Yaml) : List String :=
  let r := notesLoop validLocales 0 [] false locales
  r.1 ++ (if r.2.2 then [] else [missingRequiredLocaleMsg])

/-- `validate_notes_file` (`validate_notes.py` lines 39-119) on an
already-parsed document.  An `Except.error` is an uncaught Python
exception. -/
def validate_notes_file (validLocales : List String) (data : Yaml) :
    Except String (List String) :=
  if !pyTruthy data then .ok ["Missing 'locales' key"]
  else
    match pyContains "locales" data with
    | .error e => .error e
    | .ok false => .ok ["Missing 'locales' key"]
    | .ok true =>
      match pyGetItem "locales" data with
      | .error e => .error e
      | .ok locales =>
        match locales with
        | .list l =>
          if l.isEmpty then .ok ["At least one locale entry is required"]
          else .ok (validateNotesList validLocales l)
        | _ => .ok ["'locales' must be a list"]

/-- Core of `^([a-z]+)--(\d+\.\d+\.\d+)\.yml$`: the captured groups, or
`none`.  The first group is lowercase letters only and the second starts
with a digit, so the split at the first `--` is unambiguous. -/
def notesFilenameCore (cs : List Char) : Option (String × String) :=
  let app := cs.takeWhile (fun c => 'a' ≤ c && c ≤ 'z')
  let rest := cs.drop app.length
  match rest with
  | '-' :: '-' :: tail =>
    let ver := tail.dropLast.dropLast.dropLast.dropLast
    let suffix := tail.drop ver.length
    if app.isEmpty then none
    else if suffix == ['.', 'y', 'm', 'l'] && semverCore ver then
      some (String.mk app, String.mk ver)
    else none
  | _ => none

/-- `validate_notes_filename` (`validate_notes.py` lines 27-36):
`re.match(r'^([a-z]+)--(\d+\.\d+\.\d+)\.yml$', filename)`, returning the
captured `(app, version)` or `none` (the code's `(None, None)`).  Python's
`$` again also matches before one trailing newline. -/
def validate_notes_filename (filename : String) : Option (String × String) :=
  match notesFilenameCore filename.data with
  | some r => some r
  | none =>
    match filename.data.reverse with
    | '\n' :: ds => notesFilenameCore ds.reverse
    | _ => none

/-! ### Config validation (`validate_config.py`) -/

def cfgMissingAppsMsg : String := "config.yml: missing 'apps' key"

def cfgAppsListMsg : String := "config.yml: 'apps' must be a non-empty list"

def appObjMsg (i : Nat) : String :=
  "config.yml: app at index " ++ toString i ++ " must be an object"

def appMissingNameMsg (i : Nat) : String :=
  "config.yml: app at index " ++ toString i ++ " missing 'name'"

def invalidAppNameMsg (s : String) : String :=
  "config.yml: invalid app name '" ++ s ++ "' (must be lowercase letters only)"

def dupAppMsg (s : String) : String :=
  "config.yml: duplicate app name '" ++ s ++ "'"

def missingEnvsMsg (s : String) : String :=
  "config.yml: app '" ++ s ++ "' missing 'environments'"

def envsListMsg (s : String) : String :=
  "config.yml: app '" ++ s ++ "' environments must be a non-empty list"

def invalidEnvMsg (e an : String) : String :=
  "config.yml: invalid environment '" ++ e ++ "' in app '" ++ an ++ "' (must be lowercase letters only)"

def dupEnvMsg (e an : String) : String :=
  "config.yml: duplicate environment '" ++ e ++ "' in app '" ++ an ++ "'"

def cfgMissingLocalesMsg : String := "config.yml: missing 'locales' key"

def cfgLocalesListMsg : String := "config.yml: 'locales' must be a non-empty list"

def invalidLocaleCfgMsg (s : String) : String :=
  "config.yml: invalid locale '" ++ s ++ "' (must be a non-empty string)"

def dupLocaleCfgMsg (s : String) : String :=
  "config.yml: duplicate locale '" ++ s ++ "'"

def cfgMissingRequiredLocaleMsg : String :=
  "config.yml: missing required locale 'en-en'"

/-- Accumulated outputs of the apps loop: the `app_names` set and the
`expected_files` set (as insertion-ordered duplicate-free lists). -/
structure AppsState where
  appNames : List String
  expected : List String

/-- The environments loop of one app (`validate_config.py` lines 97-107). -/
def envLoop (an : String) (st : AppsState) (seen : List String) :
    List Yaml → List String × AppsState
  | [] => ([], st)
  | e :: rest =>
    if validate_name e then
      match e with
      | .str es =>
        if seen.contains es then
          let r := envLoop an st seen rest
          (dupEnvMsg es an :: r.1, r.2)
        else
          let st1 := { st with expected := addStr st.expected (an ++ "--" ++ es ++ ".yml") }
          envLoop an st1 (seen ++ [es]) rest
      | _ =>
        let r := envLoop an st seen rest
        (invalidEnvMsg (pyStr e) an :: r.1, r.2)
    else
      let r := envLoop an st seen rest
      (invalidEnvMsg (pyStr e) an :: r.1, r.2)

/-- One iteration of the apps loop (`validate_config.py` lines 65-107).
After a duplicate app name the whole rest of the app is skipped
(`continue`), so neither its environments nor its expected filenames are
processed. -/
def appStep (i : Nat) (st : AppsState) (app : Yaml) : List String × AppsState :=
  match app with
  | .map kvs =>
    match pyLookup kvs "name" with
    | none => ([appMissingNameMsg i], st)
    | some nv =>
      if !validate_name nv then ([invalidAppNameMsg (pyStr nv)], st)
      else
        match nv with
        | .str s =>
          if st.appNames.contains s then ([dupAppMsg s], st)
          else
            let st1 := { st with appNames := st.appNames ++ [s] }
            match pyLookup kvs "environments" with
            | none => ([missingEnvsMsg s], st1)
            | some (.list envs) =>
              if envs.isEmpty then ([envsListMsg s], st1)
              else envLoop s st1 [] envs
            | some _ => ([envsListMsg s], st1)
        | _ => ([], st)
  | _ => ([appObjMsg i], st)

/-- The apps loop over `enumerate(apps)`. -/
def appsLoop (i : Nat) (st : AppsState) : List Yaml → List String × AppsState
  | [] => ([], st)
  | a :: rest =>
    let r := appStep i st a
    let rest' := appsLoop (i + 1) r.2 rest
    (r.1 ++ rest'.1, rest'.2)

/-- The locales loop (`validate_config.py` lines 117-125), returning errors
and the accumulated locale set. -/
def localesLoop (locales : List String) : List Yaml → List String × List String
  | [] => ([], locales)
  | v :: rest =>
    match v with
    | .str s =>
      if s == "" then
        let r := localesLoop locales rest
        (invalidLocaleCfgMsg (pyStr v) :: r.1, r.2)
      else if locales.contains s then
        let r := localesLoop locales rest
        (dupLocaleCfgMsg s :: r.1, r.2)
      else localesLoop (locales ++ [s]) rest
    | _ =>
      let r := localesLoop locales rest
      (invalidLocaleCfgMsg (pyStr v) :: r.1, r.2)

/-- The `locales` part of `validate_config` (`validate_config.py` lines
109-129), returning errors and the locale set. -/
def localesCheck (cfgKvs : List (String × Yaml)) : List String × List String :=
  match pyLookup cfgKvs "locales" with
  | none => ([cfgMissingLocalesMsg], [])
  | some (.list ls) =>
    if ls.isEmpty then ([cfgLocalesListMsg], [])
    else
      let r := localesLoop [] ls
      (r.1 ++ (if r.2.contains REQUIRED_LOCALE then [] else [cfgMissingRequiredLocaleMsg]), r.2)
  | some _ => ([cfgLocalesListMsg], [])

/-- The result tuple of `validate_config`: `(expected_files, app_names,
locales, errors)`. -/
structure ConfigResult where
  expectedFiles : List String
  appNames : List String
  locales : List String
  errors : List String

/-- `validate_config` (`validate_config.py` lines 47-131) on an
already-parsed document.  An `Except.error` is an uncaught Python
exception (`config['apps']` on a list or string document). -/
def validate_config (config : Yaml) : Except String ConfigResult :=
  if !pyTruthy config then .ok ⟨[], [], [], [cfgMissingAppsMsg]⟩
  else
    match pyContains "apps" config with
    | .error e => .error e
    | .ok false => .ok ⟨[], [], [], [cfgMissingAppsMsg]⟩
    | .ok true =>
      match pyGetItem "apps" config with
      | .error e => .error e
      | .ok apps =>
        match config, apps with
        | .map cfgKvs, .list appsL =>
          if appsL.isEmpty then .ok ⟨[], [], [], [cfgAppsListMsg]⟩
          else
            let ar := appsLoop 0 ⟨[], []⟩ appsL
            let lr := localesCheck cfgKvs
            .ok ⟨ar.2.expected, ar.2.appNames, lr.2, ar.1 ++ lr.1⟩
        | _, _ => .ok ⟨[], [], [], [cfgAppsListMsg]⟩

/-! ### Cross-validation orchestrator

`src/scripts/validate.py` contains an earlier iteration of the orchestrator
with no notes reconciliation; the full orchestrator the spec describes
(§4.5) is not under `src/`.  Everything below the per-file validators is
therefore modelled from the spec, as its doc comments say. -/

/-- Modelled from the spec: the app-name component of a manifest filename
`{app}--{environment}.yml`, used when scanning manifests for version data
(the orchestrator source is missing from `src/`). -/
def appPartChars : List Char → List Char
  | [] => []
  | '-' :: '-' :: _ => []
  | c :: rest => c :: appPartChars rest

/-- Modelled from the spec: the set of versions mentioned by one manifest
document — the keys of its `versions` mapping, when present. -/
def versionsOf (doc : Yaml) : List String :=
  match doc with
  | .map kvs =>
    match pyLookup kvs "versions" with
    | some (.map v) => v.map (fun p => p.1)
    | _ => []
  | _ => []

/-- Modelled from the spec: every `(app, version)` pair mentioned by any
manifest file in the directory listing (orphans included, best-effort). -/
def manifestVersionPairs (files : List (String × Yaml)) : List (String × String) :=
  files.flatMap (fun p => (versionsOf p.2).map (fun ver => (String.mk (appPartChars p.1.data), ver)))

/-- Keep the first occurrence of each pair. -/
def dedupPairs (seen : List (String × String)) :
    List (String × String) → List (String × String)
  | [] => []
  | x :: xs =>
    if seen.contains x then dedupPairs seen xs
    else x :: dedupPairs (x :: seen) xs

/-- Run `validate_manifest` on each present-and-expected manifest file,
collecting the non-empty error lists under their filenames; an uncaught
exception propagates. -/
def collectManifestErrs (now : Int) :
    List (String × Yaml) → Except String (List (String × List String))
  | [] => .ok []
  | (f, doc) :: rest =>
    match validate_manifest now doc with
    | .error e => .error e
    | .ok errs =>
      match collectManifestErrs now rest with
      | .error e => .error e
      | .ok tail => .ok (if errs.isEmpty then tail else (f, errs) :: tail)

/-- Modelled from the spec: scan the notes directory.  A malformed filename
or an unknown app name is a file-level error that stops that file's further
checks; otherwise the notes validator runs and the file's `(app, version)`
is recorded for cross-checking. -/
def notesScan (validLocales : List String) (appNames : List String) :
    List (String × Yaml) →
    Except String (List (String × List String) × List (String × String))
  | [] => .ok ([], [])
  | (f, doc) :: rest =>
    match validate_notes_filename f with
    | none =>
      match notesScan validLocales appNames rest with
      | .error e => .error e
      | .ok r => .ok ((f, ["Invalid notes filename (expected pattern app--version.yml)"]) :: r.1, r.2)
    | some av =>
      if appNames.contains av.1 then
        match validate_notes_file validLocales doc with
        | .error e => .error e
        | .ok errs =>
          match notesScan validLocales appNames rest with
          | .error e => .error e
          | .ok r =>
            .ok ((if errs.isEmpty then r.1 else (f, errs) :: r.1), av :: r.2)
      else
        match notesScan validLocales appNames rest with
        | .error e => .error e
        | .ok r => .ok ((f, ["Notes file for unknown app '" ++ av.1 ++ "'"]) :: r.1, r.2)

/-- The synthesized filename of the notes file for an `(app, version)`
pair. -/
def notesFilenameFor (app ver : String) : String :=
  "notes/" ++ app ++ "--" ++ ver ++ ".yml"

/-- Modelled from the spec: every `(app, version)` pair appearing in
manifest data but absent from the notes set yields a synthesized
missing-notes-file error under the expected notes filename. -/
def missingNotesErrors (mpairs npairs : List (String × String)) :
    List (String × List String) :=
  (dedupPairs [] mpairs).filterMap (fun p =>
    if npairs.contains p then none
    else some (notesFilenameFor p.1 p.2, ["Missing notes file for version " ++ p.2]))

/-- Modelled from the spec: the symmetric direction — a notes `(app,
version)` absent from all manifest data. -/
def extraNotesErrors (mpairs npairs : List (String × String)) :
    List (String × List String) :=
  (dedupPairs [] npairs).filterMap (fun p =>
    if mpairs.contains p then none
    else some (notesFilenameFor p.1 p.2, ["Version " ++ p.2 ++ " not referenced in any manifest"]))

/-- Insert into a filename-sorted error mapping. -/
def insertPairSorted (p : String × List String) :
    List (String × List String) → List (String × List String)
  | [] => [p]
  | q :: qs => if strLe p.1 q.1 then p :: q :: qs else q :: insertPairSorted p qs

/-- Sort the error mapping by filename (the spec requires the report to be
iterated in sorted filename order). -/
def sortByFilename (l : List (String × List String)) : List (String × List String) :=
  l.foldr insertPairSorted []

/-- Modelled from the spec: the cross-validation orchestrator (spec §4.5) —
the `main` in `src/scripts/validate.py` is an earlier iteration without the
notes reconciliation, and the full orchestrator's source is not under
`src/`.  Inputs are the parsed `config.yml` (`none` = unreadable), the
`manifests/` directory listing with each file's parsed document (`none` =
directory absent), and likewise `notes/` (`none` = absent, treated as an
empty set of notes files).  Returns the exit code and the per-file error
mapping, sorted by filename. -/
def mainValidate (now : Int) (config : Option Yaml)
    (manifestsDir : Option (List (String × Yaml)))
    (notesDir : Option (List (String × Yaml))) :
    Except String (Nat × List (String × List String)) :=
  match config with
  | none => .ok (1, [("config.yml", ["config.yml not found or not parseable"])])
  | some cfg =>
    match validate_config cfg with
    | .error e => .error e
    | .ok cr =>
      if !cr.errors.isEmpty then .ok (1, [("config.yml", cr.errors)])
      else
        match manifestsDir with
        | none => .ok (1, [("manifests", ["manifests directory not found"])])
        | some mfiles =>
          let actual := mfiles.map (fun p => p.1)
          let orphanErrs := (actual.filter (fun f => !cr.expectedFiles.contains f)).map
            (fun f => (f, ["Manifest file not defined in config.yml"]))
          let missingErrs := (cr.expectedFiles.filter (fun f => !actual.contains f)).map
            (fun f => (f, ["Missing manifest file (defined in config.yml but file not found)"]))
          match collectManifestErrs now (mfiles.filter (fun p => cr.expectedFiles.contains p.1)) with
          | .error e => .error e
          | .ok manErrs =>
            let mpairs := manifestVersionPairs mfiles
            match notesScan cr.locales cr.appNames (notesDir.getD []) with
            | .error e => .error e
            | .ok nr =>
              let allErrs := sortByFilename (orphanErrs ++ missingErrs ++ manErrs ++ nr.1 ++
                missingNotesErrors mpairs nr.2 ++ extraNotesErrors mpairs nr.2)
              .ok (if allErrs.isEmpty then 0 else 1, allErrs)

/-! ### Concrete documents used by the claim instances -/

/-- A well-formed `default`/`green` matcher. -/
def goodMatcher : Yaml :=
  Yaml.map [("matcher_type", Yaml.str "default"), ("severity", Yaml.str "green")]

/-- A well-formed version entry released at instant `t`. -/
def goodEntry (t : Int) : Yaml :=
  Yaml.map [("released_at", Yaml.timestamp t), ("matchers", Yaml.list [goodMatcher])]

/-- The configuration of the end-to-end scenario: app `pos` with
environment `live`, locales `[en-en]`. -/
def cfgPosLive : Yaml :=
  Yaml.map
    [("apps", Yaml.list [Yaml.map
        [("name", Yaml.str "pos"),
         ("environments", Yaml.list [Yaml.str "live"])]]),
     ("locales", Yaml.list [Yaml.str "en-en"])]

/-- `manifests/pos--live.yml` of the end-to-end scenario: one version
`1.0.0`, released at instant `0`, one `default`/`green` matcher. -/
def manifestPosLive : Yaml :=
  Yaml.map [("versions", Yaml.map [("1.0.0", goodEntry 0)])]

/-! ### Helper lemmas -/

/-- Python `re.match(r'^core$', s)` succeeds exactly on a matching core or
a matching core followed by one final newline. -/
theorem reMatchDollar_iff (core : List Char → Bool) (cs : List Char) :
    reMatchDollar core cs = true ↔
      (core cs = true ∨ ∃ ds, cs = ds ++ ['\n'] ∧ core ds = true) := by
  unfold reMatchDollar
  rw [Bool.or_eq_true]
  apply or_congr Iff.rfl
  constructor
  · intro h
    split at h
    · next ds hrev =>
      refine ⟨ds.reverse, ?_, h⟩
      have := congrArg List.reverse hrev
      simpa using this
    · exact absurd h (by simp)
  · rintro ⟨ds, rfl, hcore⟩
    have hrev : (ds ++ ['\n']).reverse = '\n' :: ds.reverse := by simp
    rw [hrev]
    simpa using hcore

/-- The per-version loop distributes over list append, threading the
`released_at` state. -/
theorem entriesLoop_append (now : Int) (prev : Option (Int × String))
    (l₁ l₂ : List (String × Yaml)) :
    entriesLoop now prev (l₁ ++ l₂) =
      ((entriesLoop now prev l₁).1 ++ (entriesLoop now (entriesLoop now prev l₁).2 l₂).1,
       (entriesLoop now (entriesLoop now prev l₁).2 l₂).2) := by
  induction l₁ generalizing prev with
  | nil => simp [entriesLoop]
  | cons hd tl ih =>
    obtain ⟨v, d⟩ := hd
    simp [entriesLoop, ih, List.append_assoc]

/-- Errors of one version entry are among the errors of any per-version
loop in which the entry occurs with the matching state. -/
theorem mem_entriesLoop_middle (now : Int) (pre post : List (String × Yaml))
    (v : String) (d : Yaml) (msg : String)
    (h : msg ∈ (entryStep now (entriesLoop now none pre).2 v d).1) :
    msg ∈ (entriesLoop now none (pre ++ (v, d) :: post)).1 := by
  rw [entriesLoop_append]
  simp only [entriesLoop, List.mem_append]
  exact Or.inr (Or.inl h)

/-- The matcher loop distributes over list append, threading the state. -/
theorem matcherLoop_append (version : String) (st : MState) (l₁ l₂ : List Yaml) :
    matcherLoop version st (l₁ ++ l₂) =
      ((matcherLoop version st l₁).1 ++
         (matcherLoop version (matcherLoop version st l₁).2 l₂).1,
       (matcherLoop version (matcherLoop version st l₁).2 l₂).2) := by
  induction l₁ generalizing st with
  | nil => simp [matcherLoop]
  | cons hd tl ih => simp [matcherLoop, ih, List.append_assoc]

/-- A message every `matcherStep` on `m` emits (whatever the loop state)
occurs in the output of any matcher loop whose list contains `m`. -/
theorem mem_matcherLoop_middle (version : String) (st : MState)
    (mpre mpost : List Yaml) (m : Yaml) (msg : String)
    (h : ∀ st', msg ∈ (matcherStep version st' m).1) :
    msg ∈ (matcherLoop version st (mpre ++ m :: mpost)).1 := by
  induction mpre generalizing st with
  | nil =>
    simp only [List.nil_append, matcherLoop, List.mem_append]
    exact Or.inl (h st)
  | cons hd tl ih =>
    simp only [List.cons_append, matcherLoop, List.mem_append]
    exact Or.inr (ih _)

/-- The ascending-order violations among adjacent elements of a key list
(the claim-side comparison sequence for C6). -/
def adjOrderErrors : List String → List String
  | v :: w :: rest =>
    (if natListLe (parse_semver w) (parse_semver v) then [orderMsg v w] else []) ++
      adjOrderErrors (w :: rest)
  | _ => []

/-- The ordering pass, for any starting previous-valid-key, is a
permutation of: one invalid-format error per format-invalid key, plus the
adjacent-pair violations over the subsequence of format-valid keys. -/
theorem versionOrderErrors_perm (keys : List String) :
    ∀ prev : Option String,
      List.Perm (versionOrderErrors prev keys)
        (((keys.filter (fun k => !validate_semver k)).map invalidFmtMsg) ++
          adjOrderErrors (prev.toList ++ keys.filter (fun k => validate_semver k))) := by
  induction keys with
  | nil =>
    intro prev
    cases prev with
    | none => simp [versionOrderErrors, adjOrderErrors]
    | some p => simp [versionOrderErrors, Option.toList, adjOrderErrors]
  | cons v rest ih =>
    intro prev
    by_cases hv : validate_semver v = true
    · cases prev with
      | none =>
        have h1 : versionOrderErrors none (v :: rest) = versionOrderErrors (some v) rest := by
          simp [versionOrderErrors, hv]
        rw [h1]
        simpa [hv, Option.toList] using ih (some v)
      | some p =>
        have h1 : versionOrderErrors (some p) (v :: rest) =
            (if natListLe (parse_semver v) (parse_semver p) then [orderMsg p v] else []) ++
              versionOrderErrors (some v) rest := by
          simp [versionOrderErrors, hv]
        have h2 : ((v :: rest).filter (fun k => !validate_semver k)).map invalidFmtMsg =
            (rest.filter (fun k => !validate_semver k)).map invalidFmtMsg := by
          simp [hv]
        have h3 : adjOrderErrors ((some p).toList ++ (v :: rest).filter (fun k => validate_semver k)) =
            (if natListLe (parse_semver v) (parse_semver p) then [orderMsg p v] else []) ++
              adjOrderErrors (v :: rest.filter (fun k => validate_semver k)) := by
          simp [Option.toList, hv, adjOrderErrors]
        rw [h1, h2, h3]
        have hmid := (ih (some v)).append_left
          (if natListLe (parse_semver v) (parse_semver p) then [orderMsg p v] else [])
        simp only [Option.toList, List.singleton_append] at hmid
        refine hmid.trans ?_
        rw [← List.append_assoc, ← List.append_assoc]
        exact List.Perm.append_right _ List.perm_append_comm
    · have hb : validate_semver v = false := by
        simpa using hv
      have h1 : versionOrderErrors prev (v :: rest) =
          invalidFmtMsg v :: versionOrderErrors prev rest := by
        simp [versionOrderErrors, hb]
      rw [h1]
      have := (ih prev).cons (invalidFmtMsg v)
      simpa [hb] using this

/-! ### Claim C1 -/

/-- C1: with the configuration declaring app `pos` / environment `live`,
`manifests/pos--live.yml` a valid manifest whose only version is `1.0.0`
(its error list is empty), and `notes/pos--1.0.0.yml` absent, the overall
run fails (exit code 1) and the error mapping holds, under the synthesized
key `notes/pos--1.0.0.yml`, a message containing (here: equal to)
"Missing notes file for version 1.0.0".  The orchestrator is modelled from
the spec (its source is not under `src/`). -/
theorem c1_missing_notes_file_fails :
    validate_manifest 0 manifestPosLive = .ok [] ∧
    mainValidate 0 (some cfgPosLive) (some [("pos--live.yml", manifestPosLive)]) (some []) =
      .ok (1, [("notes/pos--1.0.0.yml", ["Missing notes file for version 1.0.0"])]) :=
  ⟨rfl, rfl⟩

/-! ### Claim C2 -/

/-- C2 (refuted; the claim is the documented intent, the code slips): for a
parsed document that is the one-element list `["versions"]` (file content
`- versions`), `validate_manifest` reaches `data['versions']` — because
`'versions' in data` is element membership on a list — and subscripting a
list with a string raises an uncaught `TypeError` instead of returning an
error list; `validate_notes_file` fails the same way on `["locales"]`. -/
theorem c2_uncaught_type_error :
    validate_manifest 0 (Yaml.list [Yaml.str "versions"]) =
      .error "TypeError: list indices must be integers or slices, not str" ∧
    validate_notes_file [] (Yaml.list [Yaml.str "locales"]) =
      .error "TypeError: list indices must be integers or slices, not str" :=
  ⟨rfl, rfl⟩

/-! ### Claim C3 -/

/-- Claim-side predicate of C3: the string is exactly three dot-separated
groups of decimal digits and nothing else. -/
def threeDotGroups (s : String) : Bool :=
  match splitOnDot s.data with
  | [a, b, c] => allDigits a && allDigits b && allDigits c
  | _ => false

/-- C3 counterexample: `"1.0.0\n"` is not three digit groups and nothing
else (it carries a trailing newline), yet `validate_semver` accepts it,
because Python's `$` also matches just before a trailing newline. -/
theorem c3_counterexample_trailing_newline :
    validate_semver "1.0.0\n" = true ∧ threeDotGroups "1.0.0\n" = false :=
  ⟨rfl, rfl⟩

/-- C3 (amended): `validate_semver s` is true iff `s` is exactly three
dot-separated decimal digit groups, or such a string followed by one
trailing newline. -/
theorem c3_semver_characterization (s : String) :
    validate_semver s = true ↔
      (threeDotGroups s = true ∨
        ∃ cs, s.data = cs ++ ['\n'] ∧ semverCore cs = true) := by
  unfold validate_semver
  rw [reMatchDollar_iff]
  exact or_congr Iff.rfl Iff.rfl

/-! ### Claim C7 -/

/-- C7 counterexample: the 65-character string of 64 `a`s and a trailing
newline is accepted by `validate_location_hash` (Python's `$` matches just
before a trailing newline), though the claim requires every string of
length 65 to be rejected. -/
theorem c7_counterexample_length65 :
    validate_location_hash (String.mk (List.replicate 64 'a' ++ ['\n'])) = true ∧
    (String.mk (List.replicate 64 'a' ++ ['\n'])).length = 65 :=
  ⟨rfl, rfl⟩

/-- Unfolding of the 64-hex-character core. -/
theorem hashCore_iff (cs : List Char) :
    hashCore cs = true ↔ (cs.length = 64 ∧ ∀ c ∈ cs, isHexLower c = true) := by
  simp [hashCore, List.all_eq_true]

/-- C7 (amended): `validate_location_hash s` is true iff `s` is exactly 64
characters, all in `[a-f0-9]` — or such a string followed by one trailing
newline.  (So uppercase hex and lengths 63/65 are rejected, except for the
one newline-suffixed 65-character family.) -/
theorem c7_hash_characterization (s : String) :
    validate_location_hash s = true ↔
      ((s.length = 64 ∧ ∀ c ∈ s.data, isHexLower c = true) ∨
        ∃ cs, s.data = cs ++ ['\n'] ∧ cs.length = 64 ∧ ∀ c ∈ cs, isHexLower c = true) := by
  unfold validate_location_hash
  rw [reMatchDollar_iff]
  apply or_congr
  · rw [hashCore_iff]
    exact Iff.rfl
  · apply exists_congr
    intro cs
    exact and_congr Iff.rfl (hashCore_iff cs)

/-! ### Claim C8 -/

/-- A manifest with one version released at instant 100. -/
def manifestRel100 : Yaml :=
  Yaml.map [("versions", Yaml.map [("1.0.0", goodEntry 100)])]

/-- C8 counterexample: `validate_manifest` reads the clock
(`datetime.now(timezone.utc)`) inside each call, so two runs on the same
unmodified file observe different `now` values; at `now = 50` the file
whose only `released_at` is instant 100 draws a released-at-in-the-future
error, at `now = 150` it draws none — the two error lists differ. -/
theorem c8_counterexample_clock_dependence :
    validate_manifest 50 manifestRel100 ≠ validate_manifest 150 manifestRel100 := by
  intro h
  have h1 : validate_manifest 50 manifestRel100 = .ok [futureMsg "1.0.0"] := rfl
  have h2 : validate_manifest 150 manifestRel100 = .ok ([] : List String) := rfl
  rw [h1, h2] at h
  simp at h

/-- C8 (amended): the manifest validator is a pure function of the parsed
file and the observed validation time, so two runs that observe the same
`now` yield identical error lists (same elements in the same order); lists
can differ only when the clock moves across a `released_at` instant or its
365-day expiry between the runs. -/
theorem c8_same_now_deterministic (data : Yaml) (now₁ now₂ : Int) (h : now₁ = now₂) :
    validate_manifest now₁ data = validate_manifest now₂ data := by
  rw [h]

/-- Witness for the amended C8 at a concrete file and time. -/
theorem c8_same_now_deterministic_witness :
    validate_manifest 100 manifestRel100 = validate_manifest 100 manifestRel100 :=
  c8_same_now_deterministic manifestRel100 100 100 rfl

/-! ### Claim C6 -/

/-- The manifest of the skip-on-invalid scenario: versions `a.b.c` then
`1.0.0` in that order, both entries otherwise well-formed. -/
def manifestABC : Yaml :=
  Yaml.map [("versions", Yaml.map [("a.b.c", goodEntry 0), ("1.0.0", goodEntry 0)])]

/-- C6: every format-invalid version key draws an invalid-format error and
is excluded from the ascending-order comparison: the ordering pass is a
permutation of the invalid-format errors plus the adjacent-pair violations
over the subsequence of format-valid keys only (so each valid key is
compared against the immediately preceding valid key, not the previous key
in original order); in particular versions `["a.b.c", "1.0.0"]` yield
exactly the invalid-format error for `a.b.c` and no ascending-order
violation. -/
theorem c6_invalid_versions_skipped :
    (∀ keys, List.Perm (versionOrderErrors none keys)
        (((keys.filter (fun k => !validate_semver k)).map invalidFmtMsg) ++
          adjOrderErrors (keys.filter (fun k => validate_semver k)))) ∧
    (∀ keys k, k ∈ keys → validate_semver k = false →
        invalidFmtMsg k ∈ versionOrderErrors none keys) ∧
    validate_manifest 0 manifestABC = .ok [invalidFmtMsg "a.b.c"] := by
  refine ⟨?_, ?_, rfl⟩
  · intro keys
    simpa [Option.toList] using versionOrderErrors_perm keys none
  · intro keys k hk hfalse
    have hperm := versionOrderErrors_perm keys none
    rw [hperm.mem_iff]
    apply List.mem_append.2
    left
    exact List.mem_map_of_mem _ (List.mem_filter.2 ⟨hk, by simp [hfalse]⟩)

/-- Witness for C6 at a concrete key list. -/
theorem c6_invalid_versions_skipped_witness :
    invalidFmtMsg "x" ∈ versionOrderErrors none ["x"] :=
  c6_invalid_versions_skipped.2.1 ["x"] "x" (by simp) (by rfl)

/-! ### Claim C4 -/

/-- The error part of the `released_at` checks once the value is present,
valid and parsed. -/
theorem releasedAtCheck_errs (now : Int) (prev : Option (Int × String)) (version : String)
    (kvs : List (String × Yaml)) (v : Yaml) (t : Int)
    (hl : pyLookup kvs "released_at" = some v)
    (hv : validate_iso8601 v = true)
    (hp : parse_iso8601 v = some t) :
    (releasedAtCheck now prev version kvs).1 =
      (if t > now then [futureMsg version] else []) ++
      (if t < now - maxAgeSecs then [oldMsg version] else []) ++
      (match prev with
       | some pp => if t < pp.1 then [chronoMsg version pp.2] else []
       | none => []) := by
  unfold releasedAtCheck
  rw [hl]
  simp [hv, hp]

/-- A `released_at` error of a version entry is among that entry's
errors. -/
theorem mem_entryStep_of_mem_rel (now : Int) (prev : Option (Int × String))
    (version : String) (kvs : List (String × Yaml)) (msg : String)
    (h : msg ∈ (releasedAtCheck now prev version kvs).1) :
    msg ∈ (entryStep now prev version (Yaml.map kvs)).1 := by
  simp only [entryStep, List.mem_append]
  exact Or.inl (Or.inr h)

/-- An error of one entry (with the state induced by the entries before it)
is among the manifest-body errors. -/
theorem mem_dict_of_entry (now : Int) (pre post : List (String × Yaml))
    (version : String) (d : Yaml) (msg : String)
    (h : msg ∈ (entryStep now (entriesLoop now none pre).2 version d).1) :
    msg ∈ validateManifestDict now (pre ++ (version, d) :: post) := by
  unfold validateManifestDict
  exact List.mem_append.2 (Or.inr (mem_entriesLoop_middle now pre post version d msg h))

/-- C4: for every version entry (at any position in the versions mapping,
with the `released_at` tracking state left by the preceding entries) whose
`released_at` passes `validate_iso8601` and parses to instant `t`: a
released-at-in-the-future error is reported when `t` is later than `now`, a
twelve-months error when `t` is earlier than `now` minus 365 days, and a
chronological-order error when `t` is earlier than the previous parsed
entry's `released_at` in file order; moreover the chronological pass is
independent of and in addition to the semver-ascending pass — the
validator's output is the concatenation of the ordering-pass errors and the
per-entry errors, and an error-free file forces both parts empty. -/
theorem c4_released_at_constraints :
    (∀ now pre post version kvs v t,
       pyLookup kvs "released_at" = some v →
       validate_iso8601 v = true →
       parse_iso8601 v = some t →
       ((t > now →
          futureMsg version ∈ validateManifestDict now (pre ++ (version, Yaml.map kvs) :: post)) ∧
        (t < now - maxAgeSecs →
          oldMsg version ∈ validateManifestDict now (pre ++ (version, Yaml.map kvs) :: post)) ∧
        (∀ p pv, (entriesLoop now none pre).2 = some (p, pv) → t < p →
          chronoMsg version pv ∈ validateManifestDict now (pre ++ (version, Yaml.map kvs) :: post)))) ∧
    (∀ now l, validateManifestDict now l =
       versionOrderErrors none (l.map (fun q => q.1)) ++ (entriesLoop now none l).1) ∧
    (∀ now l, validateManifestDict now l = [] →
       versionOrderErrors none (l.map (fun q => q.1)) = [] ∧ (entriesLoop now none l).1 = []) := by
  refine ⟨?_, fun now l => rfl, fun now l h => List.append_eq_nil.mp h⟩
  intro now pre post version kvs v t hl hv hp
  refine ⟨?_, ?_, ?_⟩
  · intro ht
    apply mem_dict_of_entry
    apply mem_entryStep_of_mem_rel
    rw [releasedAtCheck_errs now _ version kvs v t hl hv hp]
    simp [ht]
  · intro ht
    apply mem_dict_of_entry
    apply mem_entryStep_of_mem_rel
    rw [releasedAtCheck_errs now _ version kvs v t hl hv hp]
    simp [ht]
  · intro p pv hprev ht
    apply mem_dict_of_entry
    apply mem_entryStep_of_mem_rel
    rw [releasedAtCheck_errs now _ version kvs v t hl hv hp, hprev]
    simp [ht]

/-- Witness for C4: a future `released_at` and an out-of-chronological-order
`released_at` are both reported at concrete inputs. -/
theorem c4_released_at_constraints_witness :
    futureMsg "2.0.0" ∈
      validateManifestDict 1000
        [("2.0.0", Yaml.map [("released_at", Yaml.timestamp 2000),
                             ("matchers", Yaml.list [goodMatcher])])] ∧
    chronoMsg "1.1.0" "1.0.0" ∈
      validateManifestDict 1000
        [("1.0.0", goodEntry 500),
         ("1.1.0", Yaml.map [("released_at", Yaml.timestamp 400),
                             ("matchers", Yaml.list [goodMatcher])])] :=
  ⟨(c4_released_at_constraints.1 1000 [] []
      "2.0.0" [("released_at", Yaml.timestamp 2000), ("matchers", Yaml.list [goodMatcher])]
      (Yaml.timestamp 2000) 2000 rfl rfl rfl).1 (by decide),
   (c4_released_at_constraints.1 1000 [("1.0.0", goodEntry 500)] []
      "1.1.0" [("released_at", Yaml.timestamp 400), ("matchers", Yaml.list [goodMatcher])]
      (Yaml.timestamp 400) 400 rfl rfl rfl).2.2 500 "1.0.0" rfl (by decide)⟩

/-! ### Claim C5 -/

/-- A matcher error that every loop state produces for a given matcher is
among a version entry's errors whenever the entry's `matchers` list
contains that matcher. -/
theorem mem_entryStep_of_matcher (now : Int) (prev : Option (Int × String))
    (version : String) (kvs : List (String × Yaml)) (mpre mpost : List Yaml)
    (m : Yaml) (msg : String)
    (hm : pyLookup kvs "matchers" = some (Yaml.list (mpre ++ m :: mpost)))
    (h : ∀ st', msg ∈ (matcherStep version st' m).1) :
    msg ∈ (entryStep now prev version (Yaml.map kvs)).1 := by
  have h1 : msg ∈ matchersCheck version kvs := by
    unfold matchersCheck
    rw [hm]
    simp only [List.mem_append]
    exact Or.inl (Or.inl (mem_matcherLoop_middle version initMState mpre mpost m msg h))
  simp only [entryStep, List.mem_append]
  exact Or.inr h1

/-- The manifest of the C5 counterexample: version `1.0.0` carries a
mapping matcher with `matcher_type: bogus` and `severity: purple`, plus a
well-formed default matcher. -/
def manifestBogusMatcher : Yaml :=
  Yaml.map [("versions", Yaml.map
    [("1.0.0", Yaml.map
       [("released_at", Yaml.timestamp 0),
        ("matchers", Yaml.list
          [Yaml.map [("matcher_type", Yaml.str "bogus"), ("severity", Yaml.str "purple")],
           goodMatcher])])])]

/-- C5 counterexample: the mapping matcher `{matcher_type: bogus,
severity: purple}` has a severity outside `{green, yellow, red}`, yet the
validator's full output holds only the invalid-matcher_type error — no
invalid-severity error is reported, because the loop `continue`s after an
invalid `matcher_type` and never reaches the severity check. -/
theorem c5_counterexample_severity_skipped :
    validate_manifest 0 manifestBogusMatcher =
      .ok ["Version 1.0.0: invalid matcher_type 'bogus'"] ∧
    "Version 1.0.0: invalid severity 'purple'" ∉
      ["Version 1.0.0: invalid matcher_type 'bogus'"] :=
  ⟨rfl, by decide⟩

/-- C5 (amended): for a mapping matcher whose `matcher_type` IS one of
`{default, country, location_hash}`, an invalid-severity error is reported
whenever its severity is not in `{green, yellow, red}` (whatever the loop
state, and it reaches the full validator output at any position); but for a
matcher with an invalid `matcher_type`, the step emits exactly the
extra-field error (if any) followed by the invalid-matcher_type error,
leaves the state unchanged, and emits no severity error. -/
theorem c5_severity_checked_for_valid_matcher_type :
    (∀ version st mkvs mt,
       dictGet mkvs "matcher_type" = Yaml.str mt →
       MATCHER_TYPES.contains mt = true →
       yamlInStrSet (dictGet mkvs "severity") SEVERITY_VALUES = false →
       invalidSeverityMsg version (pyStr (dictGet mkvs "severity")) ∈
         (matcherStep version st (Yaml.map mkvs)).1) ∧
    (∀ version st mkvs mtv,
       dictGet mkvs "matcher_type" = mtv →
       yamlInStrSet mtv MATCHER_TYPES = false →
       (matcherStep version st (Yaml.map mkvs)).1 =
         (if (extraFields mkvs ALLOWED_MATCHER_FIELDS).isEmpty then []
          else [matcherExtraMsg version (extraFields mkvs ALLOWED_MATCHER_FIELDS)]) ++
           [invalidMatcherTypeMsg version (pyStr mtv)] ∧
       (matcherStep version st (Yaml.map mkvs)).2 = st) ∧
    (∀ now pre post version kvs mpre mpost mkvs mt,
       pyLookup kvs "matchers" = some (Yaml.list (mpre ++ Yaml.map mkvs :: mpost)) →
       dictGet mkvs "matcher_type" = Yaml.str mt →
       MATCHER_TYPES.contains mt = true →
       yamlInStrSet (dictGet mkvs "severity") SEVERITY_VALUES = false →
       invalidSeverityMsg version (pyStr (dictGet mkvs "severity")) ∈
         validateManifestDict now (pre ++ (version, Yaml.map kvs) :: post)) := by
  have part1 : ∀ version st mkvs mt,
      dictGet mkvs "matcher_type" = Yaml.str mt →
      MATCHER_TYPES.contains mt = true →
      yamlInStrSet (dictGet mkvs "severity") SEVERITY_VALUES = false →
      invalidSeverityMsg version (pyStr (dictGet mkvs "severity")) ∈
        (matcherStep version st (Yaml.map mkvs)).1 := by
    intro version st mkvs mt hmt hin hsev
    have hin' : mt ∈ MATCHER_TYPES := by simpa using hin
    simp only [matcherStep]
    rw [hmt]
    simp [hin', hsev, List.mem_append]
  refine ⟨part1, ?_, ?_⟩
  · intro version st mkvs mtv hmt hout
    simp only [matcherStep]
    rw [hmt]
    cases mtv with
    | str mt =>
      have hc : ¬ mt ∈ MATCHER_TYPES := by
        simpa [yamlInStrSet] using hout
      refine ⟨?_, ?_⟩ <;> simp [hc, pyStr]
    | int n => exact ⟨by simp, by simp⟩
    | bool b => exact ⟨by simp, by simp⟩
    | null => exact ⟨by simp, by simp⟩
    | timestamp t => exact ⟨by simp, by simp⟩
    | list xs => exact ⟨by simp, by simp⟩
    | map kvs2 => exact ⟨by simp, by simp⟩
  · intro now pre post version kvs mpre mpost mkvs mt hm hmt hin hsev
    apply mem_dict_of_entry
    exact mem_entryStep_of_matcher now _ version kvs mpre mpost (Yaml.map mkvs) _ hm
      (fun st' => part1 version st' mkvs mt hmt hin hsev)

/-- Witness for the amended C5: a `default` matcher with severity `purple`
draws the invalid-severity error in the full validator output. -/
theorem c5_severity_checked_witness :
    invalidSeverityMsg "1.0.0" "purple" ∈
      validateManifestDict 0
        [("1.0.0", Yaml.map
           [("released_at", Yaml.timestamp 0),
            ("matchers", Yaml.list
              [Yaml.map [("matcher_type", Yaml.str "default"),
                         ("severity", Yaml.str "purple")]])])] :=
  c5_severity_checked_for_valid_matcher_type.2.2 0 [] [] "1.0.0"
    [("released_at", Yaml.timestamp 0),
     ("matchers", Yaml.list
       [Yaml.map [("matcher_type", Yaml.str "default"), ("severity", Yaml.str "purple")]])]
    [] [] [("matcher_type", Yaml.str "default"), ("severity", Yaml.str "purple")]
    "default" rfl rfl rfl rfl

/-! ### Claim C9 -/

/-- A message every state's `localeEntryStep` on `e` emits occurs in the
output of any locale loop whose list contains `e`. -/
theorem mem_notesLoop_middle (vl : List String) (epre epost : List Yaml) (e : Yaml)
    (msg : String)
    (h : ∀ i seen hasReq, msg ∈ (localeEntryStep vl i seen hasReq e).1) :
    ∀ i seen hasReq, msg ∈ (notesLoop vl i seen hasReq (epre ++ e :: epost)).1 := by
  induction epre with
  | nil =>
    intro i seen hasReq
    simp only [List.nil_append, notesLoop, List.mem_append]
    exact Or.inl (h i seen hasReq)
  | cons hd tl ih =>
    intro i seen hasReq
    simp only [List.cons_append, notesLoop, List.mem_append]
    exact Or.inr (ih _ _ _)

/-- `validate_notes_file` on a document whose only key is a non-empty
`locales` list runs the locale loop. -/
theorem validate_notes_file_locales (vl : List String) (l : List Yaml)
    (hne : l.isEmpty = false) :
    validate_notes_file vl (Yaml.map [("locales", Yaml.list l)]) =
      .ok (validateNotesList vl l) := by
  simp [validate_notes_file, pyTruthy, pyContains, pyGetItem, pyLookup, hne]

/-- C9: for a locale entry that is a mapping with a present (truthy) string
name: a missing `notes` field yields exactly the missing-field error and an
empty-string `notes` exactly the cannot-be-empty error — two distinct
messages; a string of length 1..500 yields no notes error at all, and one
longer than 500 exactly the length-exceeded error.  The entry's error list
is the duplicate/undefined-locale errors followed by precisely these
notes-field errors, and (integration) a missing `notes` field surfaces in
the full `validate_notes_file` output at any entry position. -/
theorem c9_notes_field_checks :
    (∀ nm kvs, dictGet kvs "notes" = Yaml.null →
       notesFieldErrs nm kvs = [missingNotesMsg nm]) ∧
    (∀ nm kvs, dictGet kvs "notes" = Yaml.str "" →
       notesFieldErrs nm kvs = [emptyNotesMsg nm]) ∧
    (∀ nm, emptyNotesMsg nm ≠ missingNotesMsg nm) ∧
    (∀ nm kvs s, dictGet kvs "notes" = Yaml.str s →
       1 ≤ s.length → s.length ≤ 500 → notesFieldErrs nm kvs = []) ∧
    (∀ nm kvs s, dictGet kvs "notes" = Yaml.str s → s.length > 500 →
       notesFieldErrs nm kvs = [exceedsNotesMsg nm s.length]) ∧
    (∀ vl i seen hasReq kvs s, dictGet kvs "name" = Yaml.str s → s ≠ "" →
       (localeEntryStep vl i seen hasReq (Yaml.map kvs)).1 =
         ((if seen.contains s then [dupLocaleMsg s] else []) ++
          (if vl.contains s then [] else [notDefinedMsg s])) ++
           notesFieldErrs s kvs) ∧
    (∀ vl epre epost kvs s, dictGet kvs "name" = Yaml.str s → s ≠ "" →
       dictGet kvs "notes" = Yaml.null →
       ∃ errs, validate_notes_file vl
           (Yaml.map [("locales", Yaml.list (epre ++ Yaml.map kvs :: epost))]) = .ok errs ∧
         missingNotesMsg s ∈ errs) := by
  have partMissing : ∀ nm kvs, dictGet kvs "notes" = Yaml.null →
      notesFieldErrs nm kvs = [missingNotesMsg nm] := by
    intro nm kvs h
    unfold notesFieldErrs
    rw [h]
  have partStep : ∀ vl i seen hasReq kvs s, dictGet kvs "name" = Yaml.str s → s ≠ "" →
      (localeEntryStep vl i seen hasReq (Yaml.map kvs)).1 =
        ((if seen.contains s then [dupLocaleMsg s] else []) ++
         (if vl.contains s then [] else [notDefinedMsg s])) ++
          notesFieldErrs s kvs := by
    intro vl i seen hasReq kvs s hname hs
    simp only [localeEntryStep]
    rw [hname]
    have ht : pyTruthy (Yaml.str s) = true := by simp [pyTruthy, hs]
    simp [ht]
  refine ⟨partMissing, ?_, ?_, ?_, ?_, partStep, ?_⟩
  · intro nm kvs h
    unfold notesFieldErrs
    rw [h]
    rfl
  · intro nm h
    have h2 : "Locale '".data ++ (nm.data ++ ("': notes cannot be empty").data) =
        "Locale '".data ++ (nm.data ++ ("': missing 'notes' field").data) :=
      congrArg String.data h
    have h3 := List.append_cancel_left (List.append_cancel_left h2)
    simp at h3
  · intro nm kvs s h h1 h2
    have g1 : ¬ (s.length < 1) := by omega
    have g2 : ¬ (s.length > NOTES_MAX_LENGTH) := by
      simp only [NOTES_MAX_LENGTH]
      omega
    simp [notesFieldErrs, h, g1, g2]
  · intro nm kvs s h hlen
    have g1 : ¬ (s.length < 1) := by omega
    have g2 : s.length > NOTES_MAX_LENGTH := by
      simp only [NOTES_MAX_LENGTH]
      omega
    simp [notesFieldErrs, h, g1, g2]
  · intro vl epre epost kvs s hname hs hnotes
    refine ⟨validateNotesList vl (epre ++ Yaml.map kvs :: epost), ?_, ?_⟩
    · exact validate_notes_file_locales vl _ (by simp)
    · unfold validateNotesList
      apply List.mem_append.2
      left
      apply mem_notesLoop_middle
      intro i seen hasReq
      rw [partStep vl i seen hasReq kvs s hname hs, partMissing s kvs hnotes]
      simp

/-- Witness for C9: a concrete entry with name `en-en` and no `notes` field
draws the missing-notes-field error from the full notes validator. -/
theorem c9_notes_field_checks_witness :
    ∃ errs, validate_notes_file ["en-en"]
        (Yaml.map [("locales", Yaml.list [Yaml.map [("name", Yaml.str "en-en")]])]) =
        .ok errs ∧
      missingNotesMsg "en-en" ∈ errs :=
  c9_notes_field_checks.2.2.2.2.2.2 ["en-en"] [] [] [("name", Yaml.str "en-en")] "en-en"
    rfl (by decide) rfl

/-! ### Claim C10 -/

/-- The configuration of the duplicate-app scenario: two apps named `pos`;
the second one's environments hold a fresh environment and an invalid
(uppercase) name that would be flagged if it were validated. -/
def cfgDupApps : Yaml :=
  Yaml.map
    [("apps", Yaml.list
        [Yaml.map [("name", Yaml.str "pos"),
                   ("environments", Yaml.list [Yaml.str "live"])],
         Yaml.map [("name", Yaml.str "pos"),
                   ("environments", Yaml.list [Yaml.str "staging", Yaml.str "BAD"])]]),
     ("locales", Yaml.list [Yaml.str "en-en"])]

/-- C10: an app whose valid name was already seen yields exactly the
duplicate-app-name error and leaves the loop state untouched — its
environments are not validated and it contributes no expected filenames;
concretely, with two apps named `pos` the second one's environments
(`staging`, and the invalid `BAD` that would otherwise be flagged) produce
no errors and no filenames: the expected set stays `["pos--live.yml"]` and
the only error is the duplicate-app-name error. -/
theorem c10_duplicate_app_skipped :
    (∀ i st kvs s,
       pyLookup kvs "name" = some (Yaml.str s) →
       validate_name (Yaml.str s) = true →
       st.appNames.contains s = true →
       appStep i st (Yaml.map kvs) = ([dupAppMsg s], st)) ∧
    validate_config cfgDupApps =
      .ok ⟨["pos--live.yml"], ["pos"], ["en-en"], [dupAppMsg "pos"]⟩ := by
  refine ⟨?_, rfl⟩
  intro i st kvs s hl hv hd
  have hd' : s ∈ st.appNames := by simpa using hd
  simp only [appStep]
  rw [hl]
  simp [hv, hd']

/-- Witness for C10 at a concrete loop state. -/
theorem c10_duplicate_app_skipped_witness :
    appStep 1 ⟨["pos"], ["pos--live.yml"]⟩
        (Yaml.map [("name", Yaml.str "pos"),
                   ("environments", Yaml.list [Yaml.str "staging", Yaml.str "BAD"])]) =
      ([dupAppMsg "pos"], ⟨["pos"], ["pos--live.yml"]⟩) :=
  c10_duplicate_app_skipped.1 1 ⟨["pos"], ["pos--live.yml"]⟩
    [("name", Yaml.str "pos"), ("environments", Yaml.list [Yaml.str "staging", Yaml.str "BAD"])]
    "pos" rfl rfl rfl
